import Mathlib

/-!
Shallow embedding of the badger-s3 storage adapter (cache.go and the
storage file containing NewS3Storage / Lock / Unlock / Store / Load /
Stat), together with theorems checking the specification's claims.

Modelling conventions:
* bytes are `List Nat`; Go's `string([]byte)` / `[]byte(string)` round
  trips are byte-preserving, so cache values are kept as byte lists;
* time is an `Int` counted in seconds (`time.Second = 1`), so
  `LockTimeout = 15`, `LockPollInterval = 1`, `time.Hour = 3600`;
* the BadgerDB store behind cache.go is modelled by its documented TTL
  behaviour: an entry set with a TTL is visible to `txn.Get` exactly
  while `now < creation + ttl`, and a later set of the same key
  replaces the entry;
* calls into the minio client (GetObject / PutObject / RemoveObject /
  StatObject) and into the `iowrap` interface are external collaborators:
  their outcomes are oracle inputs, and the calls a facade operation
  makes are recorded in a `List RemoteOp` trace.
-/

/-- Byte strings, as lists of byte values. -/
abbrev Bytes := List Nat

/-- A BadgerDB entry as produced by `setCacheEntry`: key, payload, and
the absolute expiry instant `creation + ttl` enforced by Badger. -/
structure CacheEntry where
  key : String
  data : Bytes
  expiresAt : Int
  deriving Repr, DecidableEq

/-- The contents of the Badger database behind cache.go (most recent
entry for a key first). -/
abbrev CacheDb := List CacheEntry

/-- The shared outcome of Badger's `txn.Get` at time `now`: the stored
value when the key is present and unexpired, otherwise absent.  Both
`getCacheEntry` and `isCacheEntryExistent` in cache.go are wrappers
around this one lookup. -/
def lookupCache (c : CacheDb) (now : Int) (key : String) : Option Bytes :=
  match c.find? (fun e => e.key == key) with
  | some e => if now < e.expiresAt then some e.data else none
  | none => none

/-- cache.go `getCacheEntry`: returns the cached value, or nil when
`txn.Get` fails (absent or expired).  (Go returns `*string`; the
byte/string conversion is the identity on bytes.) -/
def getCacheEntry (c : CacheDb) (now : Int) (key : String) : Option Bytes :=
  lookupCache c now key

/-- cache.go `isCacheEntryExistent`: true exactly when `txn.Get`
succeeds for the key. -/
def isCacheEntryExistent (c : CacheDb) (now : Int) (key : String) : Bool :=
  (lookupCache c now key).isSome

/-- cache.go `setCacheEntry`: writes the entry with the given TTL
(Badger's `NewEntry(key, data).WithTTL(ttl)`), replacing any previous
version of the key. -/
def setCacheEntry (c : CacheDb) (now : Int) (key : String) (data : Bytes) (ttl : Int) : CacheDb :=
  ⟨key, data, now + ttl⟩ :: c.filter (fun e => e.key != key)

/-- The outcome of `badger.Open(badger.DefaultOptions("/tmp/badger-s3"))`:
either a database handle or an error (in which case the returned
handle is nil). -/
abbrev BadgerOpenResult := Except String CacheDb

/-- cache.go `getCacheDb`: builds (and discards) an error message when
the open fails, and returns whatever handle `badger.Open` produced --
the nil handle (`none`) in the failure case.  There is no fallback
path: the package-level `db` keeps this value for the process lifetime. -/
def getCacheDb (openResult : BadgerOpenResult) : Option CacheDb :=
  match openResult with
  | .ok d => some d
  | .error _ => none

/-- Outcome of invoking a cache operation through the package-level
`db` handle: a result when the handle is live, or a nil-receiver
dereference when `db` is nil (every operation in cache.go immediately
calls `db.View` or `db.Update`, which dereferences the receiver inside
BadgerDB; there is no nil check or absent fallback in cache.go). -/
inductive CacheOpOutcome (α : Type) where
  | ok (a : α)
  | nilDeref
  deriving Repr, DecidableEq

/-- Runs a cache.go operation (a function of the database contents)
through the possibly-nil package-level handle. -/
def cacheOpOn {α : Type} (db : Option CacheDb) (f : CacheDb → α) : CacheOpOutcome α :=
  match db with
  | some c => .ok (f c)
  | none => .nilDeref

/-- `LockExpiration = 2 * time.Minute` (declared in the source; the
expiry comparison in `Lock` actually uses `LockTimeout`). -/
def LockExpiration : Int := 120

/-- `LockPollInterval = 1 * time.Second`. -/
def LockPollInterval : Int := 1

/-- `LockTimeout = 15 * time.Second`. -/
def LockTimeout : Int := 15

/-- `time.Hour * 1`, in seconds: the TTL used by `Load` and `Stat`. -/
def timeHour : Int := 3600

/-- The encryption wrapper selected by `NewS3Storage`: `&CleartextIO{}`
or `&SecretBoxIO{}` with the 32-byte key copied in. -/
inductive IOWrapKind where
  | cleartext
  | secretbox (key : Bytes)
  deriving Repr, DecidableEq

/-- The fields of `S3Storage` that the modelled operations read:
the object-name namespace string and the bucket. -/
structure S3Storage where
  pfx : String
  bucket : String
  iowrap : IOWrapKind
  deriving Repr, DecidableEq

/-- `S3Opts` (endpoint and credentials are passed through to the minio
client; `encryptionKey` is `Option` to keep Go's nil / empty
distinction). -/
structure S3Opts where
  endpoint : String
  bucket : String
  accessKeyID : String
  secretAccessKey : String
  objPfx : String
  encryptionKey : Option Bytes

/-- Outcomes of the external calls made by `NewS3Storage`:
`minio.New` and `BucketExists`. -/
structure NewEnv where
  minioNew : Except String Unit
  bucketExists : Except String Bool

/-- `NewS3Storage`: selects the encryption wrapper from the key
(nil or empty -> cleartext; length other than 32 -> construction
error; otherwise secretbox), then builds the minio client and checks
the bucket exists. -/
def NewS3Storage (opts : S3Opts) (env : NewEnv) : Except String S3Storage :=
  let keyNilOrEmpty : Bool :=
    match opts.encryptionKey with
    | none => true
    | some l => l.isEmpty
  let wrapSel : Except String IOWrapKind :=
    if keyNilOrEmpty then .ok .cleartext
    else
      match opts.encryptionKey with
      | some l => if l.length ≠ 32 then .error "encryption key must have exactly 32 bytes" else .ok (.secretbox l)
      | none => .ok .cleartext
  match wrapSel with
  | .error e => .error e
  | .ok w =>
    match env.minioNew with
    | .error e => .error e
    | .ok _ =>
      match env.bucketExists with
      | .error e => .error e
      | .ok b =>
        if b then .ok ⟨opts.objPfx, opts.bucket, w⟩
        else .error ("S3 bucket " ++ opts.bucket ++ " does not exist")

/-- `objName`: logical key to remote object name. -/
def S3Storage.objName (gs : S3Storage) (key : String) : String :=
  gs.pfx ++ "/" ++ key

/-- `objLockName`: remote name of the lock sentinel for a key. -/
def S3Storage.objLockName (gs : S3Storage) (key : String) : String :=
  S3Storage.objName gs key ++ ".lock"

/-- A remote-store call made by a facade operation. -/
inductive RemoteOp where
  | getObj (name : String)
  | putObj (name : String) (content : Bytes)
  | removeObj (name : String)
  | statObj (name : String)
  deriving Repr, DecidableEq

/-- `time.Now().Format(time.RFC3339)` as bytes: an injective stand-in
for the RFC3339 rendering of the instant (the Go formatter is standard
library code, external to this repository). -/
def rfc3339Bytes (t : Int) : Bytes :=
  (toString t).toList.map Char.toNat

/-- The combined outcome of `ioutil.ReadAll(obj)` followed by
`time.Parse(time.RFC3339, string(buf))` inside one `Lock` loop
iteration: the read fails, or it yields unparsable content, or it
yields a timestamp (both reader and parser are external library code,
so their outcome is an oracle input). -/
inductive ReadOutcome where
  | readFail
  | unparsable
  | timestamp (lt : Int)
  deriving Repr, DecidableEq

/-- What the environment supplies during one iteration of the
`Lock` polling loop: whether `GetObject` returned a non-nil error, the
read/parse outcome, the `time.Now()` values sampled at the expiry
comparison (`nowA`), at the deadline comparison (`nowB`) and inside
`putLockFile` (`putNow`), and the result of `putLockFile`'s
`PutObject`. -/
structure LockStep where
  getObjectErr : Bool
  read : ReadOutcome
  nowA : Int
  nowB : Int
  putNow : Int
  putRes : Except String Unit
  deriving Repr

/-- The value `Lock` returns (or fails to return): `ok` is a nil
error, `putFailed` is a failing `putLockFile`, `timedOut` is
`errors.New("acquiring lock failed")`, and `fuelOut` marks a loop that
is still running when the observation budget (fuel) runs out. -/
inductive LockResult where
  | ok
  | putFailed (msg : String)
  | timedOut
  | fuelOut
  deriving Repr, DecidableEq

/-- `putLockFile`: writes the current timestamp (RFC3339) to the lock
sentinel and returns `PutObject`'s error. -/
def S3Storage.putLockFile (gs : S3Storage) (key : String) (s : LockStep) : LockResult :=
  match s.putRes with
  | .ok _ => .ok
  | .error e => .putFailed e

/-- The `PutObject` call made by `putLockFile`. -/
def S3Storage.putLockOp (gs : S3Storage) (key : String) (s : LockStep) : RemoteOp :=
  .putObj (S3Storage.objLockName gs key) (rfc3339Bytes s.putNow)

/-- The body of `Lock`'s `for` loop, iteration by iteration, with the
remote-store calls it makes recorded in order.  Following the source:
if `GetObject` returns a nil error the lock file is written at once;
otherwise, a failing read `continue`s immediately (no sleep, no
deadline check); unparsable content or an expired timestamp
(`lt + LockTimeout < now`) overwrites the lock; a held, unexpired
timestamp checks the `startedAt + LockTimeout` deadline and otherwise
sleeps `LockPollInterval` and retries.  `fuel` bounds how many
iterations are observed; `i` indexes the environment. -/
def S3Storage.lockLoop (gs : S3Storage) (key : String) (env : Nat → LockStep)
    (startedAt : Int) : Nat → Nat → LockResult × List RemoteOp
  | _, 0 => (.fuelOut, [])
  | i, fuel+1 =>
    let s := env i
    let g := RemoteOp.getObj (S3Storage.objLockName gs key)
    if s.getObjectErr then
      match s.read with
      | .readFail =>
        ((S3Storage.lockLoop gs key env startedAt (i+1) fuel).1,
         g :: (S3Storage.lockLoop gs key env startedAt (i+1) fuel).2)
      | .unparsable =>
        (S3Storage.putLockFile gs key s, [g, S3Storage.putLockOp gs key s])
      | .timestamp lt =>
        if lt + LockTimeout < s.nowA then
          (S3Storage.putLockFile gs key s, [g, S3Storage.putLockOp gs key s])
        else if startedAt + LockTimeout < s.nowB then
          (.timedOut, [g])
        else
          ((S3Storage.lockLoop gs key env startedAt (i+1) fuel).1,
           g :: (S3Storage.lockLoop gs key env startedAt (i+1) fuel).2)
    else
      (S3Storage.putLockFile gs key s, [g, S3Storage.putLockOp gs key s])

/-- `Lock`: returns nil at once when the key is cached (no remote
call); otherwise records `startedAt = time.Now()` (`now`) and enters
the polling loop. -/
def S3Storage.Lock (gs : S3Storage) (cache : CacheDb) (now : Int) (key : String)
    (env : Nat → LockStep) (fuel : Nat) : LockResult × List RemoteOp :=
  if isCacheEntryExistent cache now key then (.ok, [])
  else S3Storage.lockLoop gs key env now 0 fuel

/-- `Unlock`: returns nil at once when the key is cached (no remote
call); otherwise removes the lock sentinel and returns
`RemoveObject`'s error (`removeRes`). -/
def S3Storage.Unlock (gs : S3Storage) (cache : CacheDb) (now : Int) (key : String)
    (removeRes : Except String Unit) : Except String Unit × List RemoteOp :=
  if isCacheEntryExistent cache now key then (.ok (), [])
  else (removeRes, [.removeObj (S3Storage.objLockName gs key)])

/-- `Store`: writes `iowrap.ByteReader(value)` (the interface call is
the oracle `wrapFn`) to the namespaced object name and returns
`PutObject`'s error.  The cache is threaded through untouched: the
method contains no cache call. -/
def S3Storage.Store (gs : S3Storage) (wrapFn : Bytes → Bytes) (cache : CacheDb)
    (key : String) (value : Bytes) (putRes : Except String Unit) :
    Except String Unit × CacheDb × List RemoteOp :=
  (putRes, cache, [.putObj (S3Storage.objName gs key) (wrapFn value)])

/-- The error `Load` returns on any remote-read or decrypt failure:
`fs.ErrNotExist`. -/
inductive LoadErr where
  | errNotExist
  deriving Repr, DecidableEq

/-- Outcomes of the external calls made by `Load`'s remote path:
whether `GetObject` returned a non-nil error, and the result of
`io.ReadAll(iowrap.WrapReader(r))` (read plus decrypt; `none` is a
failure). -/
structure LoadEnv where
  getObjectErr : Bool
  readUnwrap : Option Bytes
  deriving Repr, DecidableEq

/-- The tail of `Load` after the cache check: `GetObject`, decrypting
read, cache fill with a 1-hour TTL, in source order; both failure
exits return `fs.ErrNotExist` and leave the cache untouched. -/
def S3Storage.loadRemote (gs : S3Storage) (cache : CacheDb) (now : Int) (key : String)
    (env : LoadEnv) : Except LoadErr Bytes × CacheDb × List RemoteOp :=
  if env.getObjectErr then
    (.error .errNotExist, cache, [.getObj (S3Storage.objName gs key)])
  else
    match env.readUnwrap with
    | none => (.error .errNotExist, cache, [.getObj (S3Storage.objName gs key)])
    | some buf =>
      (.ok buf, setCacheEntry cache now key buf timeHour, [.getObj (S3Storage.objName gs key)])

/-- `Load`: when the key is cached and `getCacheEntry` yields a value,
returns it with no remote call; otherwise falls through to the remote
path. -/
def S3Storage.Load (gs : S3Storage) (cache : CacheDb) (now : Int) (key : String)
    (env : LoadEnv) : Except LoadErr Bytes × CacheDb × List RemoteOp :=
  if isCacheEntryExistent cache now key then
    match getCacheEntry cache now key with
    | some raw => (.ok raw, cache, [])
    | none => S3Storage.loadRemote gs cache now key env
  else S3Storage.loadRemote gs cache now key env

/-- `certmagic.KeyInfo` as filled in by `Stat`. -/
structure KeyInfo where
  key : String
  size : Int
  modified : Int
  isTerminal : Bool
  deriving Repr, DecidableEq

/-- `json.Marshal` of a `KeyInfo`: a concrete injective rendering
standing in for the Go standard-library encoder (which cannot fail on
this struct). -/
def jsonMarshalKeyInfo (ki : KeyInfo) : Bytes :=
  (("\x7b\"key\":\"" ++ ki.key ++ "\",\"size\":" ++ toString ki.size ++
    ",\"modified\":" ++ toString ki.modified ++ ",\"isTerminal\":" ++
    (if ki.isTerminal then "true" else "false") ++ "\x7d").toList).map Char.toNat

/-- Outcomes of the external calls made by `Stat`: `StatObject`
(size and last-modified on success) and `json.Unmarshal` on a cached
record (standard-library decoder, an oracle). -/
structure StatEnv where
  statObject : Except String (Int × Int)
  unmarshal : Bytes → Option KeyInfo

/-- The tail of `Stat` after a cache miss: `StatObject`, `KeyInfo`
construction (`IsTerminal = true`), and the cache fill under
`key + "_ki"` with a 1-hour TTL (the marshal cannot fail, so the fill
always happens on success). -/
def S3Storage.statRemote (gs : S3Storage) (cache : CacheDb) (now : Int) (key : String)
    (env : StatEnv) : Except String KeyInfo × CacheDb × List RemoteOp :=
  match env.statObject with
  | .error e => (.error e, cache, [.statObj (S3Storage.objName gs key)])
  | .ok (sz, lm) =>
    (.ok ⟨key, sz, lm, true⟩,
     setCacheEntry cache now (key ++ "_ki") (jsonMarshalKeyInfo ⟨key, sz, lm, true⟩) timeHour,
     [.statObj (S3Storage.objName gs key)])

/-- `Stat`: checks the cache under `key + "_ki"`; on a hit that
deserializes cleanly, returns the cached record with no remote call;
on any miss or deserialization failure, falls through to the remote
path. -/
def S3Storage.Stat (gs : S3Storage) (cache : CacheDb) (now : Int) (key : String)
    (env : StatEnv) : Except String KeyInfo × CacheDb × List RemoteOp :=
  if isCacheEntryExistent cache now (key ++ "_ki") then
    match getCacheEntry cache now (key ++ "_ki") with
    | some raw =>
      match env.unmarshal raw with
      | some ki => (.ok ki, cache, [])
      | none => S3Storage.statRemote gs cache now key env
    | none => S3Storage.statRemote gs cache now key env
  else S3Storage.statRemote gs cache now key env

/-- A store behaviour under which every `GetObject` in the lock loop
returns an error and every `ReadAll` fails: this is how an absent
sentinel presents (the failed `GetObject` yields no readable object). -/
def envSentinelAbsent : Nat → LockStep :=
  fun _ => ⟨true, .readFail, 0, 0, 0, .ok ()⟩

/-- A concrete facade value used by the closed witness theorems. -/
def gsEx : S3Storage :=
  ⟨"objects", "bkt", .cleartext⟩

/-! ## Theorems -/

/-- Shared helper: under `envSentinelAbsent` (every sentinel read
fails), each loop iteration takes the `continue` branch, so for any
observation budget the loop is still running, having issued only
`GetObject` calls. -/
theorem lockLoop_allFail (gs : S3Storage) (key : String) (startedAt : Int) :
    ∀ fuel i, S3Storage.lockLoop gs key envSentinelAbsent startedAt i fuel
      = (.fuelOut, List.replicate fuel (RemoteOp.getObj (S3Storage.objLockName gs key))) := by
  intro fuel
  induction fuel with
  | zero => intro i; rfl
  | succ n ih =>
    intro i
    simp [S3Storage.lockLoop, envSentinelAbsent, ih, List.replicate_succ]

/-- C1: the claim says that when the sentinel read fails (the absent
case) and the key is not cached, `Lock` writes a fresh timestamped
lock object and returns success.  In the source the `putLockFile`
call is guarded by `err == nil` — a *succeeding* `GetObject` — so
under persistently failing reads the loop writes no lock object and
never returns: for every observation budget it is still running and
has issued only `GetObject` calls. -/
theorem c1_lock_absent_read_never_writes_lock (gs : S3Storage) (key : String)
    (startedAt : Int) (fuel i : Nat) :
    S3Storage.lockLoop gs key envSentinelAbsent startedAt i fuel
      = (.fuelOut, List.replicate fuel (RemoteOp.getObj (S3Storage.objLockName gs key))) :=
  lockLoop_allFail gs key startedAt fuel i

/-- C2: the claim says `Lock` terminates for every behaviour of the
remote store, returning a timeout error once the 15-second deadline
has elapsed.  Under the behaviour where every read of the sentinel
fails, the `continue` branch retries immediately without sleeping and
without reaching the deadline check, so `Lock` is still running after
any number of iterations and in particular never returns the timeout
error. -/
theorem c2_lock_does_not_reach_deadline (gs : S3Storage) (cache : CacheDb) (now : Int)
    (key : String) (fuel : Nat) (h : isCacheEntryExistent cache now key = false) :
    (S3Storage.Lock gs cache now key envSentinelAbsent fuel).1 = .fuelOut := by
  simp [S3Storage.Lock, h, lockLoop_allFail]

/-- Witness for C2 at a concrete empty cache and key. -/
theorem c2_lock_does_not_reach_deadline_witness :
    isCacheEntryExistent [] 0 "k" = false
      ∧ (S3Storage.Lock gsEx [] 0 "k" envSentinelAbsent 7).1 = .fuelOut :=
  ⟨by decide, c2_lock_does_not_reach_deadline gsEx [] 0 "k" 7 (by decide)⟩

/-- C3: on an existing sentinel whose content reads back as a parsable
RFC3339 timestamp `lt` with `lt + LockTimeout < now`, the first loop
iteration overwrites the sentinel with a fresh timestamped lock and
`Lock` returns success (the lock is reclaimed). -/
theorem c3_lock_reclaims_expired (gs : S3Storage) (cache : CacheDb) (now : Int)
    (key : String) (env : Nat → LockStep) (fuel : Nat) (lt a b p : Int)
    (hc : isCacheEntryExistent cache now key = false)
    (h0 : env 0 = ⟨true, .timestamp lt, a, b, p, .ok ()⟩)
    (hexp : lt + LockTimeout < a) :
    S3Storage.Lock gs cache now key env (fuel+1)
      = (.ok, [.getObj (S3Storage.objLockName gs key),
               .putObj (S3Storage.objLockName gs key) (rfc3339Bytes p)]) := by
  simp [S3Storage.Lock, hc, S3Storage.lockLoop, h0, hexp,
        S3Storage.putLockFile, S3Storage.putLockOp]

/-- Witness for C3: an uncached key against a sentinel carrying
timestamp 0 observed at time 100. -/
theorem c3_lock_reclaims_expired_witness :
    isCacheEntryExistent [] 50 "cert" = false
      ∧ (0 : Int) + LockTimeout < 100
      ∧ S3Storage.Lock gsEx [] 50 "cert"
          (fun _ => ⟨true, .timestamp 0, 100, 100, 100, .ok ()⟩) 3
          = (.ok, [.getObj (S3Storage.objLockName gsEx "cert"),
                   .putObj (S3Storage.objLockName gsEx "cert") (rfc3339Bytes 100)]) :=
  ⟨by decide, by decide,
   c3_lock_reclaims_expired gsEx [] 50 "cert"
     (fun _ => ⟨true, .timestamp 0, 100, 100, 100, .ok ()⟩) 2 0 100 100 100
     (by decide) rfl (by decide)⟩

/-- C4: on a key with a live cache entry, `Lock` returns success at
once and `Unlock` returns success at once, and neither performs any
remote-store call (whatever the store or `RemoveObject` would have
answered). -/
theorem c4_cached_key_shortcut (gs : S3Storage) (cache : CacheDb) (now : Int)
    (key : String) (env : Nat → LockStep) (fuel : Nat) (removeRes : Except String Unit)
    (h : isCacheEntryExistent cache now key = true) :
    S3Storage.Lock gs cache now key env fuel = (.ok, [])
      ∧ S3Storage.Unlock gs cache now key removeRes = (.ok (), []) := by
  refine ⟨?_, ?_⟩ <;> simp [S3Storage.Lock, S3Storage.Unlock, h]

/-- Witness for C4 at a concrete cached key, with a refusing
`RemoveObject`. -/
theorem c4_cached_key_shortcut_witness :
    isCacheEntryExistent [⟨"k", [1], 10⟩] 0 "k" = true
      ∧ (S3Storage.Lock gsEx [⟨"k", [1], 10⟩] 0 "k" envSentinelAbsent 0 = (.ok, [])
         ∧ S3Storage.Unlock gsEx [⟨"k", [1], 10⟩] 0 "k" (.error "remove refused") = (.ok (), [])) :=
  ⟨by decide,
   c4_cached_key_shortcut gsEx [⟨"k", [1], 10⟩] 0 "k" envSentinelAbsent 0
     (.error "remove refused") (by decide)⟩

/-- C5: on a cache miss, if the `GetObject` call errors or the
decrypting read fails, `Load` returns `fs.ErrNotExist` — the same
error value in both cases — and the cache is left unchanged (no entry
is written for the key). -/
theorem c5_load_failure_uniform_notfound (gs : S3Storage) (cache : CacheDb) (now : Int)
    (key : String) (env : LoadEnv)
    (hc : isCacheEntryExistent cache now key = false)
    (hf : env.getObjectErr = true ∨ env.readUnwrap = none) :
    (S3Storage.Load gs cache now key env).1 = .error .errNotExist
      ∧ (S3Storage.Load gs cache now key env).2.1 = cache := by
  rcases hf with hf | hf
  · simp [S3Storage.Load, hc, S3Storage.loadRemote, hf]
  · by_cases hg : env.getObjectErr <;>
      simp [S3Storage.Load, hc, S3Storage.loadRemote, hf, hg]

/-- Witness for C5 at an empty cache with a failing remote read. -/
theorem c5_load_failure_uniform_notfound_witness :
    isCacheEntryExistent [] 0 "cert" = false
      ∧ ((⟨true, none⟩ : LoadEnv).getObjectErr = true
         ∨ (⟨true, none⟩ : LoadEnv).readUnwrap = none)
      ∧ ((S3Storage.Load gsEx [] 0 "cert" ⟨true, none⟩).1 = .error .errNotExist
         ∧ (S3Storage.Load gsEx [] 0 "cert" ⟨true, none⟩).2.1 = []) :=
  ⟨by decide, by decide,
   c5_load_failure_uniform_notfound gsEx [] 0 "cert" ⟨true, none⟩ (by decide) (by decide)⟩

/-- C6: `Load` consults the cache first: on a hit it returns the
cached bytes unmodified with no remote call; on a miss it reads the
object, the decrypting read yields `buf`, it fills the cache for the
key with `buf` under a TTL of one hour, and returns `buf`. -/
theorem c6_load_readthrough (gs : S3Storage) (now : Int) (key : String)
    (cacheHit cacheMiss : CacheDb) (env : LoadEnv) (v buf : Bytes)
    (h1 : getCacheEntry cacheHit now key = some v)
    (h2 : isCacheEntryExistent cacheMiss now key = false)
    (h3 : env.getObjectErr = false)
    (h4 : env.readUnwrap = some buf) :
    S3Storage.Load gs cacheHit now key env = (.ok v, cacheHit, [])
      ∧ S3Storage.Load gs cacheMiss now key env
          = (.ok buf, setCacheEntry cacheMiss now key buf timeHour,
             [.getObj (S3Storage.objName gs key)]) := by
  constructor
  · have he : isCacheEntryExistent cacheHit now key = true := by
      unfold isCacheEntryExistent
      unfold getCacheEntry at h1
      rw [h1]
      rfl
    simp [S3Storage.Load, he, h1]
  · simp [S3Storage.Load, h2, S3Storage.loadRemote, h3, h4]

/-- Witness for C6: a hit on a live entry holding `[7]` and a miss
that pulls `[5]` from the remote store. -/
theorem c6_load_readthrough_witness :
    getCacheEntry [⟨"k", [7], 10⟩] 0 "k" = some [7]
      ∧ isCacheEntryExistent [] 0 "k" = false
      ∧ (⟨false, some [5]⟩ : LoadEnv).getObjectErr = false
      ∧ (⟨false, some [5]⟩ : LoadEnv).readUnwrap = some [5]
      ∧ (S3Storage.Load gsEx [⟨"k", [7], 10⟩] 0 "k" ⟨false, some [5]⟩
           = (.ok [7], [⟨"k", [7], 10⟩], [])
         ∧ S3Storage.Load gsEx [] 0 "k" ⟨false, some [5]⟩
             = (.ok [5], setCacheEntry [] 0 "k" [5] timeHour,
                [.getObj (S3Storage.objName gsEx "k")])) :=
  ⟨by decide, by decide, by decide, by decide,
   c6_load_readthrough gsEx 0 "k" [⟨"k", [7], 10⟩] [] ⟨false, some [5]⟩ [7] [5]
     (by decide) (by decide) (by decide) (by decide)⟩

/-- C7: `Store` issues exactly one remote write, of the wrapped value
under the namespaced object name, returns `PutObject`'s error, and
leaves the cache unchanged — so a `Load` of the same key right after
still returns the previously cached (stale) value. -/
theorem c7_store_does_not_touch_cache (gs : S3Storage) (wrapFn : Bytes → Bytes)
    (cache : CacheDb) (now : Int) (key : String) (value v : Bytes)
    (putRes : Except String Unit) (env : LoadEnv)
    (h : getCacheEntry cache now key = some v) :
    (S3Storage.Store gs wrapFn cache key value putRes).2.1 = cache
      ∧ (S3Storage.Store gs wrapFn cache key value putRes).2.2
          = [.putObj (S3Storage.objName gs key) (wrapFn value)]
      ∧ (S3Storage.Store gs wrapFn cache key value putRes).1 = putRes
      ∧ S3Storage.Load gs (S3Storage.Store gs wrapFn cache key value putRes).2.1 now key env
          = (.ok v, cache, []) := by
  have he : isCacheEntryExistent cache now key = true := by
    unfold isCacheEntryExistent
    unfold getCacheEntry at h
    rw [h]
    rfl
  refine ⟨rfl, rfl, rfl, ?_⟩
  simp [S3Storage.Store, S3Storage.Load, he, h]

/-- Witness for C7: the cache holds `[7]` for the key, a new value
`[1, 2]` is stored (wrapped with a leading marker byte), and the next
load still returns the stale `[7]`. -/
theorem c7_store_does_not_touch_cache_witness :
    getCacheEntry [⟨"k", [7], 10⟩] 0 "k" = some [7]
      ∧ ((S3Storage.Store gsEx (fun b => 0 :: b) [⟨"k", [7], 10⟩] "k" [1, 2] (.ok ())).2.1
           = [⟨"k", [7], 10⟩]
         ∧ (S3Storage.Store gsEx (fun b => 0 :: b) [⟨"k", [7], 10⟩] "k" [1, 2] (.ok ())).2.2
             = [.putObj (S3Storage.objName gsEx "k") ((fun b => 0 :: b) [1, 2])]
         ∧ (S3Storage.Store gsEx (fun b => 0 :: b) [⟨"k", [7], 10⟩] "k" [1, 2] (.ok ())).1
             = .ok ()
         ∧ S3Storage.Load gsEx
             (S3Storage.Store gsEx (fun b => 0 :: b) [⟨"k", [7], 10⟩] "k" [1, 2] (.ok ())).2.1
             0 "k" ⟨false, some [5]⟩
             = (.ok [7], [⟨"k", [7], 10⟩], [])) :=
  ⟨by decide,
   c7_store_does_not_touch_cache gsEx (fun b => 0 :: b) [⟨"k", [7], 10⟩] 0 "k" [1, 2] [7]
     (.ok ()) ⟨false, some [5]⟩ (by decide)⟩

/-- Shared helper: right after `setCacheEntry`, a lookup of the same
key at any time before the expiry instant returns the stored bytes. -/
theorem lookupCache_set_same (c : CacheDb) (now t ttl : Int) (key : String) (d : Bytes)
    (h : t < now + ttl) :
    lookupCache (setCacheEntry c now key d ttl) t key = some d := by
  simp [lookupCache, setCacheEntry, List.find?, h]

/-- C8: the claim says a failed open leaves every cache operation
silently answering "absent" without panicking.  `getCacheDb` does
swallow the open error, but what it keeps is the nil handle; every
operation in cache.go then immediately invokes a method on that nil
handle (there is no nil check or absent fallback), which dereferences
the nil receiver instead of producing an absent answer. -/
theorem c8_failed_open_keeps_nil_handle :
    getCacheDb (.error "unable to open badgerdb") = none
      ∧ cacheOpOn (getCacheDb (.error "unable to open badgerdb"))
          (fun c => isCacheEntryExistent c 0 "k") = .nilDeref :=
  ⟨rfl, rfl⟩

/-- C9: construction with a supplied (non-empty) key whose length is
not 32 fails with the key-length error before any remote call, and
construction with a nil or empty key selects the cleartext wrapper. -/
theorem c9_encryption_key_validation (e b a s p : String) (env : NewEnv) (k : Bytes)
    (hk1 : k ≠ []) (hk2 : k.length ≠ 32)
    (h1 : env.minioNew = .ok ()) (h2 : env.bucketExists = .ok true) :
    NewS3Storage ⟨e, b, a, s, p, some k⟩ env
        = .error "encryption key must have exactly 32 bytes"
      ∧ NewS3Storage ⟨e, b, a, s, p, none⟩ env = .ok ⟨p, b, .cleartext⟩
      ∧ NewS3Storage ⟨e, b, a, s, p, some []⟩ env = .ok ⟨p, b, .cleartext⟩ := by
  have hk1' : k.isEmpty = false := by
    cases k with
    | nil => exact absurd rfl hk1
    | cons x xs => rfl
  refine ⟨?_, ?_, ?_⟩ <;> simp [NewS3Storage, hk1', hk2, h1, h2]

/-- Witness for C9 at a 16-byte key and a healthy client/bucket. -/
theorem c9_encryption_key_validation_witness :
    List.replicate 16 0 ≠ ([] : Bytes)
      ∧ (List.replicate 16 (0 : Nat)).length ≠ 32
      ∧ (⟨.ok (), .ok true⟩ : NewEnv).minioNew = .ok ()
      ∧ (⟨.ok (), .ok true⟩ : NewEnv).bucketExists = .ok true
      ∧ (NewS3Storage ⟨"ep", "bkt", "ak", "sk", "objects", some (List.replicate 16 0)⟩
           ⟨.ok (), .ok true⟩
           = .error "encryption key must have exactly 32 bytes"
         ∧ NewS3Storage ⟨"ep", "bkt", "ak", "sk", "objects", none⟩ ⟨.ok (), .ok true⟩
             = .ok ⟨"objects", "bkt", .cleartext⟩
         ∧ NewS3Storage ⟨"ep", "bkt", "ak", "sk", "objects", some []⟩ ⟨.ok (), .ok true⟩
             = .ok ⟨"objects", "bkt", .cleartext⟩) :=
  ⟨by decide, by decide, rfl, rfl,
   c9_encryption_key_validation "ep" "bkt" "ak" "sk" "objects" ⟨.ok (), .ok true⟩
     (List.replicate 16 0) (by decide) (by decide) rfl rfl⟩

/-- C10: a successful `Stat` of key `k` caches the serialized
`KeyInfo` under the string `k ++ "_ki"` in the same cache the payload
path uses, so within the TTL a `Load` of the literal key `k ++ "_ki"`
answers those serialized bytes from the cache with no remote call,
and `Lock` / `Unlock` of `k ++ "_ki"` succeed through the cached-key
shortcut with no remote call. -/
theorem c10_stat_and_payload_share_namespace (gs : S3Storage) (cache : CacheDb)
    (now t : Int) (key : String) (senv : StatEnv) (lenv : LoadEnv)
    (lockEnv : Nat → LockStep) (fuel : Nat) (removeRes : Except String Unit)
    (sz lm : Int)
    (hmiss : isCacheEntryExistent cache now (key ++ "_ki") = false)
    (hstat : senv.statObject = .ok (sz, lm))
    (ht : t < now + timeHour) :
    (S3Storage.Stat gs cache now key senv).1 = .ok ⟨key, sz, lm, true⟩
      ∧ (S3Storage.Stat gs cache now key senv).2.1
          = setCacheEntry cache now (key ++ "_ki")
              (jsonMarshalKeyInfo ⟨key, sz, lm, true⟩) timeHour
      ∧ S3Storage.Load gs (S3Storage.Stat gs cache now key senv).2.1 t (key ++ "_ki") lenv
          = (.ok (jsonMarshalKeyInfo ⟨key, sz, lm, true⟩),
             (S3Storage.Stat gs cache now key senv).2.1, [])
      ∧ S3Storage.Lock gs (S3Storage.Stat gs cache now key senv).2.1 t (key ++ "_ki")
          lockEnv fuel = (.ok, [])
      ∧ S3Storage.Unlock gs (S3Storage.Stat gs cache now key senv).2.1 t (key ++ "_ki")
          removeRes = (.ok (), []) := by
  have hstat2 : (S3Storage.Stat gs cache now key senv).2.1
      = setCacheEntry cache now (key ++ "_ki")
          (jsonMarshalKeyInfo ⟨key, sz, lm, true⟩) timeHour := by
    simp [S3Storage.Stat, hmiss, S3Storage.statRemote, hstat]
  have hlook : lookupCache (S3Storage.Stat gs cache now key senv).2.1 t (key ++ "_ki")
      = some (jsonMarshalKeyInfo ⟨key, sz, lm, true⟩) := by
    rw [hstat2]
    exact lookupCache_set_same cache now t timeHour (key ++ "_ki") _ ht
  have hex : isCacheEntryExistent (S3Storage.Stat gs cache now key senv).2.1 t (key ++ "_ki")
      = true := by
    unfold isCacheEntryExistent
    rw [hlook]
    rfl
  refine ⟨?_, hstat2, ?_, ?_, ?_⟩
  · simp [S3Storage.Stat, hmiss, S3Storage.statRemote, hstat]
  · simp [S3Storage.Load, hex, getCacheEntry, hlook]
  · simp [S3Storage.Lock, hex]
  · simp [S3Storage.Unlock, hex]

/-- Witness for C10: stat of "cert" at time 0, then load and
lock/unlock of "cert" ++ "_ki" at time 100, against a remote store
that would refuse every call. -/
theorem c10_stat_and_payload_share_namespace_witness :
    isCacheEntryExistent [] 0 ("cert" ++ "_ki") = false
      ∧ (⟨.ok (5, 7), fun _ => none⟩ : StatEnv).statObject = .ok (5, 7)
      ∧ (100 : Int) < 0 + timeHour
      ∧ ((S3Storage.Stat gsEx [] 0 "cert" ⟨.ok (5, 7), fun _ => none⟩).1
           = .ok ⟨"cert", 5, 7, true⟩
         ∧ (S3Storage.Stat gsEx [] 0 "cert" ⟨.ok (5, 7), fun _ => none⟩).2.1
             = setCacheEntry [] 0 ("cert" ++ "_ki")
                 (jsonMarshalKeyInfo ⟨"cert", 5, 7, true⟩) timeHour
         ∧ S3Storage.Load gsEx
             (S3Storage.Stat gsEx [] 0 "cert" ⟨.ok (5, 7), fun _ => none⟩).2.1 100
             ("cert" ++ "_ki") ⟨true, none⟩
             = (.ok (jsonMarshalKeyInfo ⟨"cert", 5, 7, true⟩),
                (S3Storage.Stat gsEx [] 0 "cert" ⟨.ok (5, 7), fun _ => none⟩).2.1, [])
         ∧ S3Storage.Lock gsEx
             (S3Storage.Stat gsEx [] 0 "cert" ⟨.ok (5, 7), fun _ => none⟩).2.1 100
             ("cert" ++ "_ki") envSentinelAbsent 0 = (.ok, [])
         ∧ S3Storage.Unlock gsEx
             (S3Storage.Stat gsEx [] 0 "cert" ⟨.ok (5, 7), fun _ => none⟩).2.1 100
             ("cert" ++ "_ki") (.error "remove refused") = (.ok (), [])) :=
  ⟨by decide, rfl, by decide,
   c10_stat_and_payload_share_namespace gsEx [] 0 100 "cert" ⟨.ok (5, 7), fun _ => none⟩
     ⟨true, none⟩ envSentinelAbsent 0 (.error "remove refused") 5 7
     (by decide) rfl (by decide)⟩
